import Mathlib

/-!
Verification of the supervisory core of src/main.py (Derek dashboard).

The embedding translates the module-level core initialization (lines 86-92),
DerekDashboard.__init__ (lines 106-145), DerekDashboard.process_message
(lines 159-178), DerekDashboard.stop (lines 180-188) and the body of the
interaction loop in main (lines 224-246) into total Lean functions.
External collaborators (the Derek reasoner, the memory mesh bridge, the
voice engine, the microphone and recognizer) are modelled by their outcomes:
a construction either succeeds, is skipped because its class is unavailable,
or raises; a call either returns a value or raises.  Exceptions are modelled
with Except; a caught exception corresponds to pattern matching on the
error constructor, exactly where the source has an except block.
-/

namespace DerekMain

/-- Outcome of attempting to construct one subsystem: the construction
succeeds, the class is unavailable (the module failed to load, so the
conditional expression yields None without calling the constructor), or the
constructor raises. -/
inductive COutcome where
  | ok
  | missing
  | raises
deriving DecidableEq

/-- Presence flags of the subsystem handles after initialization, mirroring
the attributes of DerekDashboard: derek (reasoner), perplexity_service
(knowledge), memory_engine, conversation_engine, and the module-level
derek_ultimate_voice (voice) and memory (memory mesh bridge) handles. -/
structure Registry where
  derek : Bool
  perplexity : Bool
  memoryEngine : Bool
  conversationEngine : Bool
  voice : Bool
  memory : Bool
deriving DecidableEq

/-- Module-level core initialization, src/main.py lines 86-92: one try block
constructs derek_ultimate_voice and then memory; the except handler assigns
None to both.  A raising voice construction therefore skips the memory
construction; a raising memory construction discards the already constructed
voice handle.  A missing class yields None for that handle without raising,
and execution continues. -/
def moduleInit (voiceOut memOut : COutcome) : Bool × Bool :=
  match voiceOut with
  | COutcome.raises => (false, false)
  | COutcome.missing =>
    match memOut with
    | COutcome.ok => (false, true)
    | COutcome.missing => (false, false)
    | COutcome.raises => (false, false)
  | COutcome.ok =>
    match memOut with
    | COutcome.ok => (true, true)
    | COutcome.missing => (true, false)
    | COutcome.raises => (false, false)

/-- DerekDashboard.__init__, src/main.py lines 106-145, together with the
module-level initialization it copies into the instance.  Derek, the
perplexity service, the memory engine and the conversation engine are each
constructed inside their own try block (for derek an unavailable class also
raises when called, and is caught by the same block), so each of those four
is present exactly when its own construction succeeds. -/
def initRegistry (reasonerOk knowledgeOk memEngineOk convEngineOk : Bool)
    (voiceOut memOut : COutcome) : Registry :=
  let vm := moduleInit voiceOut memOut
  { derek := reasonerOk
    perplexity := knowledgeOk
    memoryEngine := memEngineOk
    conversationEngine := convEngineOk
    voice := vm.1
    memory := vm.2 }

/-- One entry handed to memory.store in process_message: category tag,
content summary, importance score and the metadata timestamp. -/
structure MemEntry where
  category : String
  content : String
  importance : ℚ
  timestamp : String
deriving DecidableEq

/-- Behavior of the reasoner on one utterance: derek.think either raises
(Except.error) or returns a result whose optional response field is the
Option String (Option.none models a result without a response key, which
dict.get replaces by the placeholder). -/
def ThinkFn : Type := String → Except Unit (Option String)

/-- Observables of one process_message call: the returned reply, the entries
passed to memory.store, and the entries the store kept (the call succeeded). -/
structure TurnOut where
  reply : String
  attempted : List MemEntry
  persisted : List MemEntry
deriving DecidableEq

/-- Python slicing message[:50]: the first 50 characters of the string. -/
def pyTake (n : Nat) (s : String) : String :=
  String.mk (s.toList.take n)

/-- DerekDashboard.process_message, src/main.py lines 159-178.  If derek is
None the fixed string is returned before any memory access.  Otherwise
derek.think runs inside the outer try: a raise is caught and turns into the
fixed error reply.  On success the response field (defaulted to the
placeholder) becomes the reply; if memory is truthy one entry is passed to
memory.store inside an inner try whose except swallows a store failure, so
the reply is returned unchanged in either case.  storeOk tells whether the
store call raised; it only affects what the store kept. -/
def process_message (derek : Option ThinkFn) (memPresent storeOk : Bool)
    (now message : String) : TurnOut :=
  match derek with
  | none => { reply := "System not ready.", attempted := [], persisted := [] }
  | some think =>
    match think message with
    | Except.error _ =>
      { reply := "Error processing message.", attempted := [], persisted := [] }
    | Except.ok response =>
      let final_text := response.getD "[No output]"
      if memPresent then
        let entry : MemEntry :=
          { category := "conversation"
            content := pyTake 50 message ++ " -> " ++ pyTake 50 final_text
            importance := 7 / 10
            timestamp := now }
        { reply := final_text
          attempted := [entry]
          persisted := if storeOk then [entry] else [] }
      else
        { reply := final_text, attempted := [], persisted := [] }

/-- Body of the single try block in DerekDashboard.stop, src/main.py lines
182-185.  Each handle is modelled as Option Bool: none when the subsystem is
absent (the if guard is falsy and the call is skipped), some true when the
flush call succeeds, some false when it raises.  The result lists the calls
attempted in order; Except.error carries the attempts made up to and
including the raising call, which jumps to the except handler. -/
def stopBody (memEngine mem vision : Option Bool) :
    Except (List String) (List String) :=
  let a1 := if memEngine.isSome then ["memory_engine.save"] else []
  if memEngine = some false then Except.error a1 else
  let a2 := a1 ++ (if mem.isSome then ["memory.save"] else [])
  if mem = some false then Except.error a2 else
  let a3 := a2 ++ (if vision.isSome then ["vision.stop"] else [])
  if vision = some false then Except.error a3 else Except.ok a3

/-- DerekDashboard.stop, src/main.py lines 180-188: the try body runs, and
any exception is caught by the single except handler and logged.  The result
is the list of attempted flush calls and whether an exception escaped stop
itself, which is false on every path. -/
def stop (memEngine mem vision : Option Bool) : List String × Bool :=
  match stopBody memEngine mem vision with
  | Except.ok attempts => (attempts, false)
  | Except.error attempts => (attempts, false)

/-- Decides whether the needle occurs as a contiguous substring of the
haystack, over character lists.  This models the Python expression
word in text. -/
def charsContain (hay needle : List Char) : Bool :=
  match hay with
  | [] => needle.isEmpty
  | _ :: t => needle.isPrefixOf hay || charsContain t needle

/-- Termination test of the loop, src/main.py line 238: any of the four
vocabulary words occurring as a substring of the lower-cased utterance. -/
def isTermination (text : String) : Bool :=
  let lower := text.toList.map Char.toLower
  ["goodbye", "exit", "quit", "stop"].any (fun w => charsContain lower w.toList)

/-- Farewell message printed and spoken on a termination match,
src/main.py line 239. -/
def farewellMsg : String := "Goodbye! See you next time."

/-- Python str.strip applied to the input line, src/main.py line 236:
whitespace removed from both ends. -/
def stripStr (s : String) : String :=
  String.mk
    (((s.toList.dropWhile Char.isWhitespace).reverse.dropWhile
      Char.isWhitespace).reverse)

/-- Outcome of one loop iteration: next models the continue back to the top
of the while loop; terminated models leaving the loop, by break or by an
exception that escapes the loop body to the driver boundary (the except of
main at line 248), after which the loop is over in either case. -/
inductive Outcome where
  | next
  | terminated
deriving DecidableEq

/-- Result of the microphone path of one iteration, src/main.py lines
226-234: recognizer.listen may raise (listenRaise, not inside any try),
recognizer.recognize_google may raise (recogRaise, caught, continue), or a
text is recognized. -/
inductive Capture where
  | listenRaise
  | recogRaise
  | heard (text : String)
deriving DecidableEq

/-- Observables of one loop iteration. -/
structure StepOut where
  outcome : Outcome
  dispatched : Option String
  printedReply : Option String
  farewell : Bool
  speakCalls : List String
  stores : List MemEntry
deriving DecidableEq

/-- Shared tail of the loop body once an utterance is in hand, src/main.py
lines 238-246.  On a termination match the farewell is printed and, when the
voice handle is truthy, speak is called on it; the speak call is not inside
a try, so when it raises the exception leaves the loop through the driver
boundary, and when it returns the break runs: the loop is over either way,
with no dispatch and no memory store.  Otherwise process_message runs and
its reply is printed; no speak call is made on the reply. -/
def handleUtterance (text : String) (d : Option ThinkFn) (mp so : Bool)
    (now : String) (vp sk : Bool) : StepOut :=
  if isTermination text then
    if vp then
      if sk then
        { outcome := Outcome.terminated, dispatched := none,
          printedReply := none, farewell := true,
          speakCalls := [farewellMsg], stores := [] }
      else
        { outcome := Outcome.terminated, dispatched := none,
          printedReply := none, farewell := true,
          speakCalls := [farewellMsg], stores := [] }
    else
      { outcome := Outcome.terminated, dispatched := none,
        printedReply := none, farewell := true,
        speakCalls := [], stores := [] }
  else
    let turn := process_message d mp so now text
    { outcome := Outcome.next, dispatched := some text,
      printedReply := some turn.reply, farewell := false,
      speakCalls := [], stores := turn.attempted }

/-- One iteration of the while loop of main, src/main.py lines 224-246.
With a microphone, a raise of recognizer.listen escapes the loop (no try
encloses it) and a raise of recognize_google is caught and continues;
a recognized text goes on unmodified.  Without a microphone the line read
by input is stripped before any further use. -/
def loopStep (mic : Bool) (cap : Capture) (line : String) (d : Option ThinkFn)
    (mp so : Bool) (now : String) (vp sk : Bool) : StepOut :=
  if mic then
    match cap with
    | Capture.listenRaise =>
      { outcome := Outcome.terminated, dispatched := none,
        printedReply := none, farewell := false, speakCalls := [],
        stores := [] }
    | Capture.recogRaise =>
      { outcome := Outcome.next, dispatched := none, printedReply := none,
        farewell := false, speakCalls := [], stores := [] }
    | Capture.heard t => handleUtterance t d mp so now vp sk
  else
    handleUtterance (stripStr line) d mp so now vp sk

/-- Claim C1, counterexample: the module-level try block couples voice and
memory.  With every other construction succeeding, a raising voice
construction leaves memory absent although the memory construction would
succeed (S = voice but memory is also absent), and a raising memory
construction leaves voice absent (S = memory but voice is also absent),
refuting that exactly the failed roles are absent. -/
theorem C1_counterexample_voice_memory_coupled :
    (initRegistry true true true true COutcome.raises COutcome.ok).memory
      = false ∧
    (initRegistry true true true true COutcome.ok COutcome.raises).voice
      = false :=
  ⟨rfl, rfl⟩

/-- Claim C1, amended: initialization completes without raising for every
failure pattern; the reasoner and knowledge roles are absent exactly when
their own construction fails, but voice and memory share one fault domain:
voice is present iff its construction succeeds and the memory construction
does not raise, and memory is present iff its construction succeeds and the
voice construction does not raise. -/
theorem C1_amended_registry_characterization
    (reasonerOk knowledgeOk memEngineOk convEngineOk : Bool)
    (vo mo : COutcome) :
    (initRegistry reasonerOk knowledgeOk memEngineOk convEngineOk vo mo).derek
        = reasonerOk ∧
    (initRegistry reasonerOk knowledgeOk memEngineOk convEngineOk
        vo mo).perplexity = knowledgeOk ∧
    (initRegistry reasonerOk knowledgeOk memEngineOk convEngineOk
        vo mo).memoryEngine = memEngineOk ∧
    (initRegistry reasonerOk knowledgeOk memEngineOk convEngineOk
        vo mo).conversationEngine = convEngineOk ∧
    ((initRegistry reasonerOk knowledgeOk memEngineOk convEngineOk
        vo mo).voice = true ↔ vo = COutcome.ok ∧ mo ≠ COutcome.raises) ∧
    ((initRegistry reasonerOk knowledgeOk memEngineOk convEngineOk
        vo mo).memory = true ↔ mo = COutcome.ok ∧ vo ≠ COutcome.raises) := by
  cases vo <;> cases mo <;> simp [initRegistry, moduleInit]

/-- Claim C1, witness: the amended characterization evaluated at a concrete
failure pattern (voice class missing, everything else succeeding). -/
theorem C1_amended_witness :
    (initRegistry true true true true COutcome.missing COutcome.ok).derek
        = true ∧
    (initRegistry true true true true COutcome.missing COutcome.ok).perplexity
        = true ∧
    (initRegistry true true true true COutcome.missing COutcome.ok).memoryEngine
        = true ∧
    (initRegistry true true true true COutcome.missing
        COutcome.ok).conversationEngine = true ∧
    ((initRegistry true true true true COutcome.missing COutcome.ok).voice
        = true ↔ COutcome.missing = COutcome.ok ∧
          COutcome.ok ≠ COutcome.raises) ∧
    ((initRegistry true true true true COutcome.missing COutcome.ok).memory
        = true ↔ COutcome.ok = COutcome.ok ∧
          COutcome.missing ≠ COutcome.raises) :=
  C1_amended_registry_characterization true true true true COutcome.missing
    COutcome.ok

/-- Claim C2, counterexample: the fixed reply strings of process_message are
capitalized and the error reply carries a trailing period, so a reasoner
result without a response field yields a reply that is neither of the
strings quoted in the claim, and likewise for a raising reasoner. -/
theorem C2_counterexample_reply_strings :
    (process_message (some (fun _ => Except.ok none)) true true
        "2025-09-01T00:00:00" "hi").reply = "[No output]" ∧
    "[No output]" ≠ "[no output]" ∧
    (process_message (some (fun _ => Except.error ())) true true
        "2025-09-01T00:00:00" "hi").reply = "Error processing message." ∧
    "Error processing message." ≠ "error processing message" :=
  ⟨rfl, by decide, rfl, by decide⟩

/-- Claim C2, amended: for every utterance and every reasoner behavior,
process_message (a total function, so it never raises) returns exactly one
reply, which is the actual reply text of the reasoner result, or the fixed
placeholder with capital N when the result has no response field, or the
fixed capitalized error reply with trailing period when the invocation
raises. -/
theorem C2_amended_reply_cases (think : ThinkFn) (mp so : Bool)
    (now msg : String) :
    (∃ s, think msg = Except.ok (some s) ∧
      (process_message (some think) mp so now msg).reply = s) ∨
    (process_message (some think) mp so now msg).reply = "[No output]" ∨
    (process_message (some think) mp so now msg).reply
      = "Error processing message." := by
  cases hmsg : think msg with
  | error e => exact Or.inr (Or.inr (by simp [process_message, hmsg]))
  | ok r =>
    cases r with
    | none =>
      refine Or.inr (Or.inl ?_)
      cases mp <;> simp [process_message, hmsg]
    | some s =>
      exact Or.inl ⟨s, rfl, by cases mp <;> simp [process_message, hmsg]⟩

/-- Claim C3, counterexample: with the reasoner absent and the empty
utterance, process_message returns the capitalized string with trailing
period, not the string quoted in the claim. -/
theorem C3_counterexample_not_ready_string :
    (process_message none true true "2025-09-01T00:00:00" "").reply
      = "System not ready." ∧
    "System not ready." ≠ "system not ready" :=
  ⟨rfl, by decide⟩

/-- Claim C3, amended: for every utterance including the empty string,
process_message returns the fixed reply System not ready. exactly when the
reasoner is absent — the only-if direction needs the proviso that a present
reasoner does not itself return that literal string as its response field —
and in the absent case no entry is ever passed to the memory store. -/
theorem C3_amended_not_ready_iff (d : Option ThinkFn) (mp so : Bool)
    (now msg : String)
    (h : ∀ t, d = some t → t msg ≠ Except.ok (some "System not ready.")) :
    ((process_message d mp so now msg).reply = "System not ready." ↔ d = none)
    ∧ (process_message none mp so now msg).attempted = [] := by
  refine ⟨?_, rfl⟩
  cases d with
  | none => simp [process_message]
  | some t =>
    have hne : (process_message (some t) mp so now msg).reply
        ≠ "System not ready." := by
      cases hmsg : t msg with
      | error e => simp [process_message, hmsg]
      | ok r =>
        cases r with
        | none => cases mp <;> simp [process_message, hmsg]
        | some s =>
          intro hs
          have hsval : s = "System not ready." := by
            cases mp <;> simpa [process_message, hmsg] using hs
          exact (h t rfl) (by rw [hmsg, hsval])
    constructor
    · intro hr; exact absurd hr hne
    · intro hn; simp at hn

/-- Claim C3, witness: the amended statement evaluated with the reasoner
absent on the empty utterance. -/
theorem C3_amended_witness :
    ((process_message none true true "2025-09-01T00:00:00" "").reply
      = "System not ready." ↔ (none : Option ThinkFn) = none) ∧
    (process_message none true true "2025-09-01T00:00:00" "").attempted
      = [] :=
  C3_amended_not_ready_iff none true true "2025-09-01T00:00:00" ""
    (fun t ht => absurd ht (by simp))

/-- Claim C4: with the reasoner returning a result whose response field is
It is sunny on the utterance What is the weather, process_message returns
exactly that string, and with memory present it passes the store exactly one
entry with category conversation, importance 7/10, content built from the
first 50 characters of the utterance and of the reply, and the current-time
timestamp (modelled as the abstract now argument, the value of
datetime.now().isoformat()); with memory absent the reply is the same. -/
theorem C4_weather_turn (now : String) (so : Bool) :
    process_message (some (fun _ => Except.ok (some "It is sunny"))) true true
        now "What is the weather" =
      ⟨"It is sunny",
       [⟨"conversation", "What is the weather -> It is sunny", 7 / 10, now⟩],
       [⟨"conversation", "What is the weather -> It is sunny", 7 / 10, now⟩]⟩
    ∧ (process_message (some (fun _ => Except.ok (some "It is sunny"))) false
        so now "What is the weather").reply = "It is sunny" :=
  ⟨rfl, rfl⟩

/-- Claim C5: the reply of process_message is the same when the memory store
is present but its store call raises as when memory is absent, for every
reasoner state, utterance and timestamp — a store failure never changes the
returned reply and never escapes the call. -/
theorem C5_store_failure_invisible (d : Option ThinkFn) (now msg : String) :
    (process_message d true false now msg).reply
      = (process_message d false true now msg).reply := by
  cases d with
  | none => rfl
  | some t =>
    cases hmsg : t msg with
    | error e => simp [process_message, hmsg]
    | ok r => simp [process_message, hmsg]

/-- Claim C6, counterexample: all three flush calls of stop sit in one try
block, so with the memory engine save raising and the memory mesh save able
to succeed, the memory mesh save is never attempted — the attempts are not
isolated from each other. -/
theorem C6_counterexample_shutdown_isolation :
    stop (some false) (some true) none = (["memory_engine.save"], false) ∧
    "memory.save" ∉ (stop (some false) (some true) none).1 := by decide

/-- Claim C6, amended: stop never lets an exception escape, and the flush
attempts run in the fixed order memory engine save, memory save, vision
stop, with a single handler catching the first failure, so a later call is
attempted exactly when its subsystem is present and no earlier present call
raised. -/
theorem C6_amended_shutdown_order :
    ∀ memEngine mem vision : Option Bool,
      (stop memEngine mem vision).2 = false ∧
      ("memory_engine.save" ∈ (stop memEngine mem vision).1
        ↔ memEngine.isSome) ∧
      ("memory.save" ∈ (stop memEngine mem vision).1
        ↔ mem.isSome ∧ memEngine ≠ some false) ∧
      ("vision.stop" ∈ (stop memEngine mem vision).1
        ↔ vision.isSome ∧ memEngine ≠ some false ∧ mem ≠ some false) := by
  decide

/-- Claim C6, witness: the amended statement evaluated with a succeeding
memory engine, a failing memory mesh save and a present vision subsystem. -/
theorem C6_amended_witness :
    (stop (some true) (some false) (some true)).2 = false ∧
    ("memory_engine.save" ∈ (stop (some true) (some false) (some true)).1
      ↔ (some true : Option Bool).isSome) ∧
    ("memory.save" ∈ (stop (some true) (some false) (some true)).1
      ↔ (some false : Option Bool).isSome ∧
        (some true : Option Bool) ≠ some false) ∧
    ("vision.stop" ∈ (stop (some true) (some false) (some true)).1
      ↔ (some true : Option Bool).isSome ∧
        (some true : Option Bool) ≠ some false ∧
        (some false : Option Bool) ≠ some false) :=
  C6_amended_shutdown_order (some true) (some false) (some true)

/-- Claim C7: for every utterance whose lower-cased form contains a
termination word, obtained through the microphone or through a stripped text
line, the iteration prints the farewell, calls speak on it exactly when the
voice handle is present, leaves the loop, dispatches nothing to
process_message and passes nothing to the memory store — and all of this is
independent of whether the speak call raises, since a raising speak leaves
the loop through the driver boundary while a returning one reaches the
break. -/
theorem C7_termination_phrase (t line : String) (cap : Capture)
    (d : Option ThinkFn) (mp so : Bool) (now : String) (vp sk : Bool)
    (h1 : isTermination t = true)
    (h2 : isTermination (stripStr line) = true) :
    loopStep true (Capture.heard t) line d mp so now vp sk =
      ⟨Outcome.terminated, none, none, true,
        if vp then [farewellMsg] else [], []⟩ ∧
    loopStep false cap line d mp so now vp sk =
      ⟨Outcome.terminated, none, none, true,
        if vp then [farewellMsg] else [], []⟩ := by
  constructor <;> cases vp <;> cases sk <;>
    simp [loopStep, handleUtterance, h1, h2]

/-- Claim C7, witness: the termination behavior evaluated on the utterance
goodbye, I am done heard from the microphone and on the text line with the
word EXIT, with the voice present and its speak call raising. -/
theorem C7_termination_phrase_witness :
    isTermination "goodbye, I am done" = true ∧
    isTermination (stripStr " EXIT ") = true ∧
    (loopStep true (Capture.heard "goodbye, I am done") " EXIT " none false
        false "2025-09-01T00:00:00" true false =
      ⟨Outcome.terminated, none, none, true, [farewellMsg], []⟩ ∧
     loopStep false Capture.recogRaise " EXIT " none false false
        "2025-09-01T00:00:00" true false =
      ⟨Outcome.terminated, none, none, true, [farewellMsg], []⟩) :=
  ⟨by decide, by decide,
   C7_termination_phrase "goodbye, I am done" " EXIT " Capture.recogRaise none
     false false "2025-09-01T00:00:00" true false (by decide) (by decide)⟩

/-- Claim C8, counterexample: a raising capture call (recognizer.listen is
enclosed by no try inside the loop) ends the loop through the driver
boundary instead of re-entering the listening state. -/
theorem C8_counterexample_capture_terminates :
    (loopStep true Capture.listenRaise "" none false false
        "2025-09-01T00:00:00" false false).outcome = Outcome.terminated ∧
    Outcome.terminated ≠ Outcome.next :=
  ⟨rfl, by decide⟩

/-- Claim C8, amended: with a microphone configured, a recognition failure
is caught and the loop re-enters listening with no turn dispatched and no
memory store, but a capture failure is not locally recovered: the exception
escapes the loop to the outer driver boundary and the loop terminates,
still with no turn dispatched. -/
theorem C8_amended_capture_vs_recognition (line : String) (d : Option ThinkFn)
    (mp so : Bool) (now : String) (vp sk : Bool) :
    loopStep true Capture.recogRaise line d mp so now vp sk =
      ⟨Outcome.next, none, none, false, [], []⟩ ∧
    loopStep true Capture.listenRaise line d mp so now vp sk =
      ⟨Outcome.terminated, none, none, false, [], []⟩ :=
  ⟨rfl, rfl⟩

/-- Claim C9: evaluation at the failing input — voice output present,
reasoner present and replying It is sunny to the heard utterance hello.
The iteration prints the reply and continues, but the speak-call list is
empty: the loop never emits a turn reply through the voice output, although
the program banner announces a speech-to-speech mode. -/
theorem C9_code_bug_reply_not_spoken :
    loopStep true (Capture.heard "hello") ""
        (some (fun _ => Except.ok (some "It is sunny"))) true true
        "2025-09-01T00:00:00" true true =
      ⟨Outcome.next, some "hello", some "It is sunny", false, [],
        [⟨"conversation", "hello -> It is sunny", 7 / 10,
          "2025-09-01T00:00:00"⟩]⟩ :=
  rfl

/-- Claim C10: in text mode the line read by input is stripped of leading
and trailing whitespace before the termination test and before dispatch, so
the dispatched utterance is the stripped line, while an utterance recognized
from audio is dispatched exactly as recognized, unstripped. -/
theorem C10_text_stripped_audio_not (line t : String) (cap : Capture)
    (d : Option ThinkFn) (mp so : Bool) (now : String) (vp sk : Bool)
    (h1 : isTermination (stripStr line) = false)
    (h2 : isTermination t = false) :
    (loopStep false cap line d mp so now vp sk).dispatched
      = some (stripStr line) ∧
    (loopStep true (Capture.heard t) line d mp so now vp sk).dispatched
      = some t := by
  constructor <;> simp [loopStep, handleUtterance, h1, h2]

/-- Claim C10, witness: a whitespace-only text line is dispatched as the
empty string, and an audio utterance with surrounding whitespace is
dispatched verbatim. -/
theorem C10_text_stripped_audio_not_witness :
    isTermination (stripStr "   ") = false ∧
    isTermination "  What time is it  " = false ∧
    ((loopStep false Capture.recogRaise "   " none false false
        "2025-09-01T00:00:00" false false).dispatched
      = some (stripStr "   ") ∧
     (loopStep true (Capture.heard "  What time is it  ") "   " none false
        false "2025-09-01T00:00:00" false false).dispatched
      = some "  What time is it  ") ∧
    stripStr "   " = "" :=
  ⟨by decide, by decide,
   C10_text_stripped_audio_not "   " "  What time is it  " Capture.recogRaise
     none false false "2025-09-01T00:00:00" false false (by decide)
     (by decide),
   by decide⟩

end DerekMain
